import Mathlib

/-!
Shallow embedding of the doggy TUI core (src/src/app.rs and the screen
components it dispatches to), together with theorems checking the
specification's claims about the action-dispatch loop, the screen
lifecycle, background-task supervision and the line editor.

Async tasks and cancellation tokens are modelled by an explicit
environment (`TaskEnv`) of allocated token/task identifiers; runtime
client calls are modelled by an oracle (`Runtime`) of `Except`-valued
responses, and each update step records the calls it makes and the
actions it enqueues on the action channel.
-/

namespace Doggy

/-- Model of the tokio task world: counters handing out fresh
cancellation-token and task-handle identifiers, plus the signalled /
running status of each. `CancellationToken::cancel` marks a token
signalled; `JoinHandle::abort` marks a task as no longer running. -/
structure TaskEnv where
  nextToken : Nat
  nextTask : Nat
  cancelled : Nat → Bool
  running : Nat → Bool

def TaskEnv.init : TaskEnv :=
  { nextToken := 0, nextTask := 0, cancelled := fun _ => false, running := fun _ => false }

/-- `CancellationToken::new()`: allocate a fresh, unsignalled token. -/
def TaskEnv.newToken (e : TaskEnv) : Nat × TaskEnv :=
  (e.nextToken, { e with nextToken := e.nextToken + 1 })

/-- `tokio::spawn(...)`: allocate a fresh task handle, initially running. -/
def TaskEnv.spawnTask (e : TaskEnv) : Nat × TaskEnv :=
  (e.nextTask,
   { e with
     nextTask := e.nextTask + 1,
     running := fun n => if n = e.nextTask then true else e.running n })

/-- `CancellationToken::cancel()`. -/
def TaskEnv.cancelToken (t : Nat) (e : TaskEnv) : TaskEnv :=
  { e with cancelled := fun n => if n = t then true else e.cancelled n }

/-- `JoinHandle::abort()`: the task no longer runs afterwards. -/
def TaskEnv.abortTask (t : Nat) (e : TaskEnv) : TaskEnv :=
  { e with running := fun n => if n = t then false else e.running n }

/-- `runtime/model.rs` `Filter`: a keyed set of filter entries
(the `HashMap<String, String>` is modelled as an insertion list with
key replacement). -/
structure Filter where
  entries : List (String × String)
deriving DecidableEq

instance : Inhabited Filter := ⟨⟨[]⟩⟩

/-- `Filter::filter(key, value)`: insert, replacing an existing key. -/
def Filter.add (f : Filter) (k v : String) : Filter :=
  ⟨(k, v) :: f.entries.filter (fun p => p.1 ≠ k)⟩

/-- `Filter::name(name)`. -/
def Filter.name (f : Filter) (n : String) : Filter :=
  f.add "name" n

/-- `impl From<String> for Filter` (split on the first '='). -/
def Filter.fromString (s : String) : Filter :=
  match s.splitOn "=" with
  | [] => default
  | [_] => default
  | k :: rest =>
    let v := String.intercalate "=" rest
    if v = "" then (default : Filter).name k else (default : Filter).add k v

/-- `runtime/model.rs` `ContainerSummary` (the fields the core reads;
`status` is kept as its display string, `labels`/`image_id` are not
consulted by the modelled code). -/
structure ContainerSummary where
  id : String
  name : String
  image : String
  status : String
  age : Int
deriving DecidableEq

/-- `runtime/model.rs` `ImageSummary`. -/
structure ImageSummary where
  id : String
  name : String
  size : Int
  created : Int
deriving DecidableEq

/-- Insert into a sorted list w.r.t. a boolean "not greater" test;
helper for modelling `Vec::sort_by`. -/
def insertLe {α : Type} (le : α → α → Bool) (a : α) : List α → List α
  | [] => [a]
  | b :: l => if le a b then a :: b :: l else b :: insertLe le a l

/-- Model of `Vec::sort_by` with comparator-induced order. -/
def sortByLe {α : Type} (le : α → α → Bool) : List α → List α
  | [] => []
  | a :: l => insertLe le a (sortByLe le l)

end Doggy

namespace Doggy.App

/-- `app.rs` `InputMode`. -/
inductive InputMode where
  | nothing
  | change
  | filter
deriving DecidableEq

/-- `app.rs` `Popup`. -/
inductive Popup where
  | nothing
  | error (msg : String) (timeout ttl : Nat)
  | help
deriving DecidableEq

/-- `DEFAULT_TOAST_DELAY`. -/
def defaultToastDelay : Nat := 8

/-- The `App` struct fields the modelled code manipulates (the text
buffer is a list of characters, mirroring the char-wise editing the
source performs). -/
structure State where
  should_quit : Bool
  should_suspend : Bool
  input : List Char
  input_mode : InputMode
  cursor_position : Nat
  show_popup : Popup
deriving DecidableEq

/-- `App::new`. -/
def State.new : State :=
  { should_quit := false, should_suspend := false, input := [],
    input_mode := .nothing, cursor_position := 0, show_popup := .nothing }

/-- `App::clamp_cursor`: `new_cursor_pos.clamp(0, self.input.len())`. -/
def clampCursor (s : State) (p : Nat) : Nat :=
  min p s.input.length

/-- `App::move_cursor_left` (saturating decrement, then clamp). -/
def moveCursorLeft (s : State) : State :=
  { s with cursor_position := clampCursor s (s.cursor_position - 1) }

/-- `App::move_cursor_right` (saturating increment, then clamp). -/
def moveCursorRight (s : State) : State :=
  { s with cursor_position := clampCursor s (s.cursor_position + 1) }

/-- `App::enter_char`: insert at the cursor, then move right. -/
def enterChar (c : Char) (s : State) : State :=
  let s := { s with
    input := s.input.take s.cursor_position ++ [c] ++ s.input.drop s.cursor_position }
  moveCursorRight s

/-- `App::delete_char`: when the cursor is not leftmost, drop the
character before it (chars-before ++ chars-after), then move left. -/
def deleteChar (s : State) : State :=
  if s.cursor_position ≠ 0 then
    let s := { s with
      input := s.input.take (s.cursor_position - 1) ++ s.input.drop s.cursor_position }
    moveCursorLeft s
  else s

/-- The `KeyCode::Esc` branch of `App::handle_input`: empty the buffer,
leave input mode, reset the cursor. -/
def escapeKey (s : State) : State :=
  { s with input := [], input_mode := .nothing, cursor_position := 0 }

/-- `App::reset_input`. -/
def resetInput (s : State) : State :=
  { s with input := [], cursor_position := 0, input_mode := .nothing }

/-- The four line-editor operations of `App::handle_input` the claims
quantify over. -/
inductive EditOp where
  | insert (c : Char)
  | backspace
  | left
  | right
deriving DecidableEq

/-- Apply one line-editor operation. -/
def applyEdit (op : EditOp) (s : State) : State :=
  match op with
  | .insert c => enterChar c s
  | .backspace => deleteChar s
  | .left => moveCursorLeft s
  | .right => moveCursorRight s

/-- Apply a sequence of line-editor operations, first one first. -/
def applyEdits (ops : List EditOp) (s : State) : State :=
  ops.foldl (fun s op => applyEdit op s) s

end Doggy.App

namespace Doggy.Containers

/-- `components/containers.rs` `SortOrder`. -/
inductive SortOrder where
  | asc
  | desc
deriving DecidableEq

/-- `components/containers.rs` `SortColumn`. -/
inductive SortColumn where
  | id (o : SortOrder)
  | name (o : SortOrder)
  | image (o : SortOrder)
  | status (o : SortOrder)
  | age (o : SortOrder)
deriving DecidableEq

/-- `components/containers.rs` `ShellPopup`. -/
structure ShellPopup where
  cid : String
  cname : String
  input : String
  cursor_position : Nat
deriving DecidableEq

/-- `ShellPopup::new`. -/
def ShellPopup.new (cid cname : String) : ShellPopup :=
  { cid := cid, cname := cname, input := "", cursor_position := 0 }

/-- `components/containers.rs` `Popup`. -/
inductive Popup where
  | nothing
  | delete (cid cname : String)
  | shell (p : ShellPopup)
deriving DecidableEq

/-- The `Containers` screen state (the `metrics` buffer shared with the
polling worker is only read by `draw` and therefore not part of the
update model; the worker itself lives in the `TaskEnv`). -/
structure State where
  all : Bool
  selected : Option Nat
  containers : List ContainerSummary
  show_popup : Popup
  hasTx : Bool
  sort_by : SortColumn
  filter : Filter
  token : Nat
  task : Nat
deriving DecidableEq

/-- The comparator inside `Containers::sort`, as an `Ordering`. -/
def cmpBy (c : SortColumn) (a b : ContainerSummary) : Ordering :=
  let (r, o) :=
    match c with
    | .id o => (compare a.id b.id, o)
    | .name o => (compare a.name b.name, o)
    | .image o => (compare a.image b.image, o)
    | .status o => (compare a.status b.status, o)
    | .age o => (compare a.age b.age, o)
  match o with
  | .asc => r
  | .desc => r.swap

/-- `Containers::sort` (stable comparator sort of the row list). -/
def sortRows (c : SortColumn) (l : List ContainerSummary) : List ContainerSummary :=
  sortByLe (fun a b => cmpBy c a b ≠ Ordering.gt) l

/-- `Containers::new(filter)`: fresh cancellation token, spawn the
metrics-polling worker, empty row list, no popup. -/
def new (filter : Filter) (env : TaskEnv) : State × TaskEnv :=
  let (t, env1) := env.newToken
  let (h, env2) := env1.spawnTask
  ({ all := false, selected := none, containers := [], show_popup := .nothing,
     hasTx := false, sort_by := .name .asc, filter := filter, token := t, task := h },
   env2)

/-- `Containers::previous` (wrap to last from the first row). -/
def previous (s : State) : State :=
  if s.containers.isEmpty then s
  else
    let i :=
      match s.selected with
      | some i => if i = 0 then s.containers.length - 1 else i - 1
      | none => 0
    { s with selected := some i }

/-- `Containers::next` (wrap to first from the last row). -/
def next (s : State) : State :=
  if s.containers.isEmpty then s
  else
    let i :=
      match s.selected with
      | some i => if i ≥ s.containers.length - 1 then 0 else i + 1
      | none => 0
    { s with selected := some i }

/-- `Containers::get_selected_container_info`. -/
def getSelectedContainerInfo (s : State) : Option (String × String) :=
  (s.selected.bind (fun i => s.containers.get? i)).map (fun c => (c.id, c.name))

/-- `Containers::cancel`: signal the cancellation token, abort the task. -/
def cancel (s : State) (env : TaskEnv) : TaskEnv :=
  TaskEnv.abortTask s.task (TaskEnv.cancelToken s.token env)

/-- `Containers::teardown` forwards to `cancel`. -/
def teardown (s : State) (env : TaskEnv) : TaskEnv :=
  cancel s env

/-- The `SortColumn` table of the `(Action::SortColumn(n), Popup::None)`
branch of `Containers::update`. -/
def sortColumnFor (n : Nat) (c : SortColumn) : SortColumn :=
  match n, c with
  | 1, .id .asc => .id .desc
  | 1, _ => .id .asc
  | 2, .name .asc => .name .desc
  | 2, _ => .name .asc
  | 3, .image .asc => .image .desc
  | 3, _ => .image .asc
  | 4, .status .asc => .status .desc
  | 4, _ => .status .asc
  | 5, .age .asc => .age .desc
  | 5, _ => .age .asc
  | _, _ => c

end Doggy.Containers

namespace Doggy.ContainerLogs

/-- The `ContainerLogs` screen state; `logs` models the contents of the
`Arc<Mutex<Vec<String>>>` buffer shared with the follower task. -/
structure State where
  id : String
  name : String
  logs : List String
  token : Nat
  task : Nat
  vertical_scroll : Nat
  hasTx : Bool
  follow : Bool
  auto_scroll : Bool
  since : Int
deriving DecidableEq

/-- `ContainerLogs::new(id, name)`: fresh token, spawn the log-follower
task, empty shared buffer, `follow = true`, `since = 15`. -/
def new (id name : String) (env : TaskEnv) : State × TaskEnv :=
  let (t, env1) := env.newToken
  let (h, env2) := env1.spawnTask
  ({ id := id, name := name, logs := [], token := t, task := h,
     vertical_scroll := 0, hasTx := false, follow := true, auto_scroll := true,
     since := 15 },
   env2)

/-- `ContainerLogs::cancel`: signal the token, abort the task. -/
def cancel (s : State) (env : TaskEnv) : TaskEnv :=
  TaskEnv.abortTask s.task (TaskEnv.cancelToken s.token env)

/-- `ContainerLogs::down` (saturating). -/
def scrollDown (qty : Nat) (s : State) : State :=
  { s with vertical_scroll := s.vertical_scroll + qty }

/-- `ContainerLogs::up` (saturating). -/
def scrollUp (qty : Nat) (s : State) : State :=
  { s with vertical_scroll := s.vertical_scroll - qty }

end Doggy.ContainerLogs

namespace Doggy.ContainerExec

/-- `components/container_exec.rs` `DEFAULT_CMD`. -/
def defaultCmd : String := "/bin/bash"

/-- The `ContainerExec` screen state (`cname` is the container name the
`Containers` screen passes alongside the id). -/
structure State where
  cid : String
  cname : String
  command : String
  hasTx : Bool
  should_stop : Bool
deriving DecidableEq

/-- `ContainerExec::new(cid, command)`, defaulting to `DEFAULT_CMD`. -/
def new (cid cname : String) (command : Option String) : State :=
  { cid := cid, cname := cname, command := command.getD defaultCmd,
    hasTx := false, should_stop := false }

end Doggy.ContainerExec

namespace Doggy.ContainerInspect

/-- The `ContainerDetails` inspect-screen state. -/
structure State where
  cid : String
  cname : String
  details : String
  vertical_scroll : Nat
deriving DecidableEq

end Doggy.ContainerInspect

namespace Doggy.ContainerView

/-- The `ContainerView` screen state (`details` is the last fetched
detail snapshot). -/
structure State where
  id : String
  details : Option String
  hasTx : Bool
deriving DecidableEq

/-- `ContainerView::new(id)`. -/
def new (id : String) : State :=
  { id := id, details := none, hasTx := false }

end Doggy.ContainerView

namespace Doggy.Images

/-- `components/images.rs` `SortOrder`. -/
inductive SortOrder where
  | asc
  | desc
deriving DecidableEq

/-- `components/images.rs` `SortColumn`. -/
inductive SortColumn where
  | id (o : SortOrder)
  | name (o : SortOrder)
  | size (o : SortOrder)
  | age (o : SortOrder)
deriving DecidableEq

/-- `components/images.rs` `Popup`. -/
inductive Popup where
  | nothing
  | delete (id tag : String)
deriving DecidableEq

/-- The `Images` screen state. -/
structure State where
  selected : Option Nat
  images : List ImageSummary
  show_popup : Popup
  hasTx : Bool
  sort_by : SortColumn
  filter : Option String
deriving DecidableEq

/-- `Images::new`. -/
def new : State :=
  { selected := none, images := [], show_popup := .nothing, hasTx := false,
    sort_by := .age .asc, filter := none }

/-- The comparator inside `Images::sort`. -/
def cmpBy (c : SortColumn) (a b : ImageSummary) : Ordering :=
  let (r, o) :=
    match c with
    | .id o => (compare a.id b.id, o)
    | .name o => (compare a.name b.name, o)
    | .size o => (compare a.size b.size, o)
    | .age o => (compare a.created b.created, o)
  match o with
  | .asc => r
  | .desc => r.swap

/-- `Images::sort`. -/
def sortRows (c : SortColumn) (l : List ImageSummary) : List ImageSummary :=
  sortByLe (fun a b => cmpBy c a b ≠ Ordering.gt) l

/-- `Images::previous`. -/
def previous (s : State) : State :=
  if s.images.isEmpty then s
  else
    let i :=
      match s.selected with
      | some i => if i = 0 then s.images.length - 1 else i - 1
      | none => 0
    { s with selected := some i }

/-- `Images::next`. -/
def next (s : State) : State :=
  if s.images.isEmpty then s
  else
    let i :=
      match s.selected with
      | some i => if i ≥ s.images.length - 1 then 0 else i + 1
      | none => 0
    { s with selected := some i }

/-- `Images::get_selected_image_info`. -/
def getSelectedImageInfo (s : State) : Option (String × String) :=
  (s.selected.bind (fun i => s.images.get? i)).map (fun c => (c.id, c.name))

/-- The `SortColumn` table of the `Action::SortColumn(n)` branch of
`Images::update`. -/
def sortColumnFor (n : Nat) (c : SortColumn) : SortColumn :=
  match n, c with
  | 1, .id .asc => .id .desc
  | 1, _ => .id .asc
  | 2, .name .asc => .name .desc
  | 2, _ => .name .asc
  | 3, .size .asc => .size .desc
  | 3, _ => .size .asc
  | 4, .age .asc => .age .desc
  | 4, _ => .age .asc
  | _, _ => c

end Doggy.Images

namespace Doggy.ImageInspect

/-- Modelled from the spec: the `ImageInspect` detail view constructed by
`Images::update` on `Action::Inspect`; its source file
(`components/image_inspect.rs`) is not in the snapshot, and no claim
exercises its behaviour, so only its constructor payload is modelled. -/
structure State where
  id : String
  name : String
  details : String
deriving DecidableEq

end Doggy.ImageInspect

namespace Doggy

/-- `components.rs` `Component`: the sum type of active screens (the
variants the modelled code paths construct or dispatch to; the compose /
network / volume screens own no background tasks and are not reachable
from any claim). -/
inductive Component where
  | containers (s : Containers.State)
  | containerExec (s : ContainerExec.State)
  | containerInspect (s : ContainerInspect.State)
  | containerLogs (s : ContainerLogs.State)
  | containerView (s : ContainerView.State)
  | images (s : Images.State)
  | imageInspect (s : ImageInspect.State)
deriving DecidableEq

/-- `action.rs` `Action` (the variants the modelled code produces and
consumes). -/
inductive Action where
  | down
  | up
  | pageUp
  | pageDown
  | quit
  | all
  | inspect
  | logs
  | shell
  | customShell
  | delete
  | screen (c : Component)
  | ok
  | previousScreen
  | change
  | filter
  | setFilter (f : Option String)
  | tick
  | render
  | error (msg : String)
  | resize (w h : Nat)
  | resume
  | suspend
  | help
  | sortColumn (n : Nat)
  | since (n : Nat)
  | autoScroll
deriving DecidableEq

/-- The runtime-client calls a single `update` can make, recorded as a
trace. -/
inductive RCall where
  | listContainers (all : Bool) (f : Filter)
  | getContainer (id : String)
  | getContainerDetails (id : String)
  | deleteContainer (id : String)
  | validateContainerFilters (f : String)
  | listImages (f : Option String)
  | getImage (id : String)
  | deleteImage (id : String)
  | execSession (id cmd : String)
deriving DecidableEq

/-- The Runtime Client oracle: every async call a screen's `update` can
make, with its (possibly failing) response. -/
structure Runtime where
  listContainers : Bool → Filter → Except String (List ContainerSummary)
  getContainer : String → Except String String
  getContainerDetails : String → Except String String
  deleteContainer : String → Except String Unit
  validateContainerFilters : String → Bool
  listImages : Option String → Except String (List ImageSummary)
  getImage : String → Except String String
  deleteImage : String → Except String Unit
  execSession : String → String → Except String Unit

/-- Result of one `update` step: the new screen state, the task
environment, the actions sent on the action channel (in send order) and
the runtime calls made (in call order). -/
structure UpdateOut (σ : Type) where
  state : σ
  env : TaskEnv
  emitted : List Action
  calls : List RCall

/-- Unchanged-state result helper. -/
def UpdateOut.id {σ : Type} (s : σ) (env : TaskEnv) : UpdateOut σ :=
  ⟨s, env, [], []⟩

end Doggy

namespace Doggy.Containers

/-- `Containers::update` (`components/containers.rs:351`): the match on
`(action, self.show_popup.clone())`. A missing action sender models the
`expect` panic as an error; every other branch is total. -/
def update (rt : Runtime) (a : Action) (s : State) (env : TaskEnv) :
    Except String (UpdateOut State) := do
  if ¬ s.hasTx then throw "Action tx queue not initialized" else
  match a, s.show_popup with
  | .tick, .nothing =>
    match rt.listContainers s.all s.filter with
    | .ok l =>
      let s1 := { s with containers := sortRows s.sort_by l }
      let s2 := if s1.selected = none then { s1 with selected := some 0 } else s1
      pure ⟨s2, env, [], [.listContainers s.all s.filter]⟩
    | .error e =>
      let s1 := { s with containers := sortRows s.sort_by [] }
      let s2 := if s1.selected = none then { s1 with selected := some 0 } else s1
      pure ⟨s2, env, [.error ("Error getting container list: " ++ e)],
            [.listContainers s.all s.filter]⟩
  | .down, .nothing => pure (UpdateOut.id (next s) env)
  | .up, .nothing => pure (UpdateOut.id (previous s) env)
  | .all, .nothing => pure (UpdateOut.id { s with all := !s.all } env)
  | .setFilter f, .nothing =>
    match f with
    | some f =>
      if rt.validateContainerFilters f then
        pure ⟨{ s with filter := Filter.fromString f }, env, [],
              [.validateContainerFilters f]⟩
      else
        pure ⟨s, env, [.error ("Invalid filter: " ++ f)], [.validateContainerFilters f]⟩
    | none => pure (UpdateOut.id { s with filter := default } env)
  | .inspect, .nothing =>
    match getSelectedContainerInfo s with
    | some (cid, cname) =>
      match rt.getContainer cid with
      | .ok details =>
        pure ⟨s, env,
              [.screen (.containerInspect ⟨cid, cname, details, 0⟩)], [.getContainer cid]⟩
      | .error e =>
        pure ⟨s, env,
              [.error ("Unable to get container \"" ++ cname ++ "\" details:\n" ++ e)],
              [.getContainer cid]⟩
    | none => pure (UpdateOut.id s env)
  | .logs, .nothing =>
    match getSelectedContainerInfo s with
    | some (cid, cname) =>
      let (ls, env1) := ContainerLogs.new cid cname env
      pure ⟨s, env1, [.screen (.containerLogs ls)], []⟩
    | none => pure (UpdateOut.id s env)
  | .ok, .nothing =>
    match getSelectedContainerInfo s with
    | some (cid, _) =>
      pure ⟨s, env, [.screen (.containerView (ContainerView.new cid))], []⟩
    | none => pure (UpdateOut.id s env)
  | .shell, .nothing =>
    match getSelectedContainerInfo s with
    | some (cid, cname) =>
      pure ⟨s, env,
            [.suspend, .screen (.containerExec (ContainerExec.new cid cname none))], []⟩
    | none => pure (UpdateOut.id s env)
  | .customShell, .nothing =>
    match getSelectedContainerInfo s with
    | some (cid, cname) =>
      pure (UpdateOut.id { s with show_popup := .shell (ShellPopup.new cid cname) } env)
    | none => pure (UpdateOut.id s env)
  | .delete, .nothing =>
    match getSelectedContainerInfo s with
    | some (cid, cname) =>
      pure (UpdateOut.id { s with show_popup := .delete cid cname } env)
    | none => pure (UpdateOut.id s env)
  | .ok, .delete cid _ =>
    match rt.deleteContainer cid with
    | .error e =>
      pure ⟨s, env, [.error ("Unable to delete container \"" ++ cid ++ "\" " ++ e)],
            [.deleteContainer cid]⟩
    | .ok _ =>
      pure ⟨{ s with show_popup := .nothing }, env, [], [.deleteContainer cid]⟩
  | .ok, .shell sp =>
    pure ⟨s, env,
          [.suspend,
           .screen (.containerExec (ContainerExec.new sp.cid sp.cname (some sp.input)))],
          []⟩
  | .previousScreen, .delete _ _ =>
    pure (UpdateOut.id { s with show_popup := .nothing } env)
  | .previousScreen, .shell _ =>
    pure (UpdateOut.id { s with show_popup := .nothing } env)
  | .sortColumn n, .nothing =>
    pure (UpdateOut.id { s with sort_by := sortColumnFor n s.sort_by } env)
  | _, _ => pure (UpdateOut.id s env)

end Doggy.Containers

namespace Doggy.Images

/-- `Images::update` (`components/images.rs:156`): unlike the containers
screen, a failing `list_images` on `Tick` is propagated with `?` and
unwinds out of `update`. -/
def update (rt : Runtime) (a : Action) (s : State) (env : TaskEnv) :
    Except String (UpdateOut State) := do
  if ¬ s.hasTx then throw "No action sender available" else
  match a with
  | .tick =>
    match rt.listImages s.filter with
    | .error e => throw e
    | .ok l =>
      let s1 := { s with images := sortRows s.sort_by l }
      let s2 := if s1.selected = none then { s1 with selected := some 0 } else s1
      pure ⟨s2, env, [], [.listImages s.filter]⟩
  | .down => pure (UpdateOut.id (next s) env)
  | .up => pure (UpdateOut.id (previous s) env)
  | .inspect =>
    match getSelectedImageInfo s with
    | some (id, name) =>
      match rt.getImage id with
      | .ok details =>
        pure ⟨s, env, [.screen (.imageInspect ⟨id, name, details⟩)], [.getImage id]⟩
      | .error e =>
        pure ⟨s, env,
              [.error ("Unable to get image \"" ++ name ++ "\" details:\n" ++ e)],
              [.getImage id]⟩
    | none => pure (UpdateOut.id s env)
  | .setFilter f => pure (UpdateOut.id { s with filter := f } env)
  | .delete =>
    match getSelectedImageInfo s with
    | some (id, tag) =>
      pure (UpdateOut.id { s with show_popup := .delete id tag } env)
    | none => pure (UpdateOut.id s env)
  | .ok =>
    match s.show_popup with
    | .delete id _ =>
      match rt.deleteImage id with
      | .error e =>
        pure ⟨s, env, [.error ("Unable to delete container \"" ++ id ++ "\" " ++ e)],
              [.deleteImage id]⟩
      | .ok _ =>
        pure ⟨{ s with show_popup := .nothing }, env, [.tick], [.deleteImage id]⟩
    | .nothing => pure (UpdateOut.id s env)
  | .previousScreen => pure (UpdateOut.id { s with show_popup := .nothing } env)
  | .sortColumn n =>
    pure (UpdateOut.id { s with sort_by := sortColumnFor n s.sort_by } env)
  | _ => pure (UpdateOut.id s env)

end Doggy.Images

namespace Doggy.ContainerLogs

/-- `ContainerLogs::update` (`components/container_logs.rs:134`). The
`Since(n)` branch cancels the old follower, clears the shared buffer and
spawns exactly one fresh follower; `PreviousScreen` cancels and
navigates back to a fresh `Containers` screen. -/
def update (_rt : Runtime) (a : Action) (s : State) (env : TaskEnv) :
    Except String (UpdateOut State) := do
  if ¬ s.hasTx then throw "No action sender" else
  match a with
  | .previousScreen =>
    let env1 := cancel s env
    let (cs, env2) := Containers.new default env1
    pure ⟨s, env2, [.screen (.containers cs)], []⟩
  | .up => pure (UpdateOut.id (scrollUp 1 { s with auto_scroll := false }) env)
  | .down => pure (UpdateOut.id (scrollDown 1 { s with auto_scroll := false }) env)
  | .pageUp => pure (UpdateOut.id (scrollUp 15 { s with auto_scroll := false }) env)
  | .pageDown => pure (UpdateOut.id (scrollDown 15 { s with auto_scroll := false }) env)
  | .since n =>
    let env1 := cancel s env
    let s1 := { s with logs := [] }
    let (t, env2) := env1.newToken
    let (h, env3) := env2.spawnTask
    pure ⟨{ s1 with task := h, token := t, since := (n : Int) }, env3, [], []⟩
  | .autoScroll => pure (UpdateOut.id { s with auto_scroll := !s.auto_scroll } env)
  | _ => pure (UpdateOut.id s env)

end Doggy.ContainerLogs

namespace Doggy.ContainerExec

/-- `ContainerExec::update` (`components/container_exec.rs:64`): unless
already stopped, run the interactive exec session to completion (its
failure models the `expect` panics), then — remote stream ended — send
`Resume` followed by `Screen(Containers)`, and stop. -/
def update (rt : Runtime) (_a : Action) (s : State) (env : TaskEnv) :
    Except String (UpdateOut State) := do
  if s.should_stop then pure (UpdateOut.id s env) else
  match rt.execSession s.cid s.command with
  | .error e => throw e
  | .ok _ =>
    if s.hasTx then
      let (cs, env1) := Containers.new default env
      pure ⟨{ s with should_stop := true }, env1,
            [.resume, .screen (.containers cs)], [.execSession s.cid s.command]⟩
    else
      pure ⟨s, env, [], [.execSession s.cid s.command]⟩

end Doggy.ContainerExec

namespace Doggy.ContainerInspect

/-- `ContainerDetails::update` (`components/container_inspect.rs:62`):
`PreviousScreen` navigates back to a fresh `Containers` screen, the
navigation keys scroll; everything else leaves the view unchanged. -/
def update (_rt : Runtime) (a : Action) (s : State) (env : TaskEnv) :
    Except String (UpdateOut State) := do
  match a with
  | .previousScreen =>
    let (cs, env1) := Containers.new default env
    pure ⟨s, env1, [.screen (.containers cs)], []⟩
  | .up => pure (UpdateOut.id { s with vertical_scroll := s.vertical_scroll - 1 } env)
  | .down => pure (UpdateOut.id { s with vertical_scroll := s.vertical_scroll + 1 } env)
  | .pageUp => pure (UpdateOut.id { s with vertical_scroll := s.vertical_scroll - 15 } env)
  | .pageDown =>
    pure (UpdateOut.id { s with vertical_scroll := s.vertical_scroll + 15 } env)
  | _ => pure (UpdateOut.id s env)

end Doggy.ContainerInspect

namespace Doggy.ContainerView

/-- `ContainerView::update` (`components/container_view.rs:48`). -/
def update (rt : Runtime) (a : Action) (s : State) (env : TaskEnv) :
    Except String (UpdateOut State) := do
  if ¬ s.hasTx then throw "No action sender" else
  match a with
  | .previousScreen =>
    let (cs, env1) := Containers.new default env
    pure ⟨s, env1, [.screen (.containers cs)], []⟩
  | .tick =>
    match rt.getContainerDetails s.id with
    | .ok d =>
      pure ⟨{ s with details := some d }, env, [], [.getContainerDetails s.id]⟩
    | .error e =>
      pure ⟨{ s with details := none }, env, [.error e], [.getContainerDetails s.id]⟩
  | _ => pure (UpdateOut.id s env)

end Doggy.ContainerView

namespace Doggy.Component

open Doggy

/-- `Component::register_action_handler` (gives the screen the action
channel producer). -/
def register (c : Component) : Component :=
  match c with
  | .containers s => .containers { s with hasTx := true }
  | .containerExec s => .containerExec { s with hasTx := true }
  | .containerInspect s => .containerInspect s
  | .containerLogs s => .containerLogs { s with hasTx := true }
  | .containerView s => .containerView { s with hasTx := true }
  | .images s => .images { s with hasTx := true }
  | .imageInspect s => .imageInspect s

/-- `Component::update` dispatch (`components.rs:123`); the
`ImageInspect` file is absent from the snapshot and no claim reaches it,
so it is a no-op view. -/
def update (rt : Runtime) (a : Action) (c : Component) (env : TaskEnv) :
    Except String (UpdateOut Component) :=
  match c with
  | .containers s =>
    (Containers.update rt a s env).map (fun r => ⟨.containers r.state, r.env, r.emitted, r.calls⟩)
  | .containerExec s =>
    (ContainerExec.update rt a s env).map
      (fun r => ⟨.containerExec r.state, r.env, r.emitted, r.calls⟩)
  | .containerInspect s =>
    (ContainerInspect.update rt a s env).map
      (fun r => ⟨.containerInspect r.state, r.env, r.emitted, r.calls⟩)
  | .containerLogs s =>
    (ContainerLogs.update rt a s env).map
      (fun r => ⟨.containerLogs r.state, r.env, r.emitted, r.calls⟩)
  | .containerView s =>
    (ContainerView.update rt a s env).map
      (fun r => ⟨.containerView r.state, r.env, r.emitted, r.calls⟩)
  | .images s =>
    (Images.update rt a s env).map (fun r => ⟨.images r.state, r.env, r.emitted, r.calls⟩)
  | .imageInspect s => .ok (UpdateOut.id (.imageInspect s) env)

/-- `Component::teardown` dispatch (`components.rs:178`): only the
`ContainerExec` and `Containers` variants are delegated to; every other
screen — including `ContainerLogs` — gets the default `Ok(())`, leaving
its tasks untouched. `ContainerExec::teardown` only restarts the
terminal driver, which has no effect on the task environment. -/
def teardown (c : Component) (env : TaskEnv) : TaskEnv :=
  match c with
  | .containers s => Containers.teardown s env
  | .containerExec _ => env
  | _ => env

/-- `Component::has_filter` dispatch (`components.rs:221`). -/
def hasFilter (c : Component) : Bool :=
  match c with
  | .containers _ => true
  | .images _ => true
  | _ => false

end Doggy.Component

namespace Doggy

/-- The crossterm key codes the modelled key handlers distinguish. -/
inductive KeyCode where
  | char (c : Char)
  | fKey (n : Nat)
  | up
  | down
  | pageUp
  | pageDown
  | esc
  | enter
  | backspace
  | left
  | right
  | other
deriving DecidableEq

/-- A key press (only the CONTROL modifier is consulted by the modelled
code). -/
structure KeyEvent where
  code : KeyCode
  ctrl : Bool
deriving DecidableEq

end Doggy

namespace Doggy.Component

/-- `Component::get_action` dispatch (`components.rs:205`): the
screen-specific key bindings. The `Images` binding for `c` constructs a
fresh `Containers` screen (spawning its metrics worker), hence the
environment is threaded through. -/
def getAction (c : Component) (k : KeyEvent) (env : TaskEnv) :
    Option Action × TaskEnv :=
  match c with
  | .containers _ =>
    (match k.code with
     | .char 'i' => some .inspect
     | .char 'l' => some .logs
     | .char 's' => some .shell
     | .char 'S' => some .customShell
     | .enter => some .ok
     | _ => none, env)
  | .containerLogs _ =>
    (match k.code with
     | .char 's' => some .autoScroll
     | .char '1' => some (.since 1)
     | .char '2' => some (.since 3)
     | .char '3' => some (.since 5)
     | .char '4' => some (.since 10)
     | .char '5' => some (.since 15)
     | _ => none, env)
  | .containerView _ => (none, env)
  | .images s =>
    match k.code with
    | .char 'c' =>
      match Images.getSelectedImageInfo s with
      | some (id, _) =>
        let (cs, env1) := Containers.new ((default : Filter).add "ancestor" id) env
        (some (.screen (.containers cs)), env1)
      | none => (none, env)
    | _ => (none, env)
  | _ => (none, env)

end Doggy.Component

namespace Doggy.App

open Doggy

/-- The fixed global keymap: the fallback `match kevent.code` of
`App::handle_key` (`app.rs:407`). -/
def globalKeymap (main : Component) (k : KeyEvent) : Option Action :=
  match k.code with
  | .char 'a' => some .all
  | .char 'q' => some .quit
  | .char ':' => some .change
  | .char '/' => if main.hasFilter then some .filter else none
  | .char 'j' => some .down
  | .down => some .down
  | .char 'k' => some .up
  | .up => some .up
  | .char '?' => some .help
  | .fKey n => some (.sortColumn n)
  | .pageUp => some .pageUp
  | .pageDown => some .pageDown
  | .esc => some .previousScreen
  | .enter => some .ok
  | .char 'd' => if k.ctrl then some .delete else none
  | _ => none

/-- `App::handle_key` (`app.rs:396`): screen-specific bindings are
consulted only when no popup is shown, then the global keymap is the
fallback; the resulting action (if any) is sent on the channel. -/
def handleKey (s : State) (main : Component) (k : KeyEvent) (env : TaskEnv) :
    Option Action × TaskEnv :=
  let (action, env1) :=
    if s.show_popup = .nothing then Component.getAction main k env else (none, env)
  (action.or (globalKeymap main k), env1)

/-- The full state the drain loop of `App::run` acts on. -/
structure Sys where
  app : State
  main : Component
  env : TaskEnv

/-- One iteration of the drain loop body (`app.rs:104-168`): the
cross-cutting match on the action, then — only if the input mode is
`None` *after* that match — forwarding the same action to the active
screen's `update`. Returns the updated system and the actions the
forwarded update sent on the channel. -/
def processOne (rt : Runtime) (sys : Sys) (a : Action) :
    Except String (Sys × List Action) := do
  let app := sys.app
  let (app, main, env) :=
    match a with
    | .quit => ({ app with should_quit := true }, sys.main, sys.env)
    | .suspend => ({ app with should_suspend := true }, sys.main, sys.env)
    | .resume => ({ app with should_suspend := false }, sys.main, sys.env)
    | .resize _ _ => (app, sys.main, sys.env)
    | .render => (app, sys.main, sys.env)
    | .tick =>
      (match app.show_popup with
       | .error msg timeout ttl =>
         if ttl > 0 then { app with show_popup := .error msg timeout (ttl - 1) }
         else { app with show_popup := .nothing }
       | _ => app, sys.main, sys.env)
    | .screen c =>
      let newMain := Component.register c
      let env1 := Component.teardown sys.main sys.env
      (app, newMain, env1)
    | .change => ({ app with input_mode := .change }, sys.main, sys.env)
    | .filter => ({ app with input_mode := .filter }, sys.main, sys.env)
    | .help => ({ app with show_popup := .help }, sys.main, sys.env)
    | .previousScreen =>
      let app := if app.input_mode = InputMode.change then resetInput app else app
      (match app.show_popup with
       | .error _ _ _ => { app with show_popup := .nothing }
       | .help => { app with show_popup := .nothing }
       | .nothing => app, sys.main, sys.env)
    | .error m =>
      ({ app with show_popup := .error m defaultToastDelay defaultToastDelay },
       sys.main, sys.env)
    | _ => (app, sys.main, sys.env)
  if app.input_mode = InputMode.nothing then do
    let r ← Component.update rt a main env
    pure (⟨app, r.state, r.env⟩, r.emitted)
  else
    pure (⟨app, main, env⟩, [])

/-- The drain loop (`while let Ok(action) = action_rx.try_recv()`):
actions are consumed in arrival order, and actions sent during an
update are appended to the same queue and consumed in the same drain.
Fuel bounds the recursion. -/
def drain (rt : Runtime) : Nat → Sys → List Action → Except String Sys
  | _, sys, [] => .ok sys
  | 0, _, _ :: _ => .error "out of fuel"
  | fuel + 1, sys, a :: q => do
    let (sys1, emitted) ← processOne rt sys a
    drain rt fuel sys1 (q ++ emitted)

end Doggy.App




namespace Doggy

/-! Concrete fixtures used by witnesses and counterexamples. -/

/-- A sample container row. -/
def cWeb : ContainerSummary := ⟨"c1f2e3a4b5c6", "web", "nginx", "Running", 5⟩

/-- A sample container row. -/
def cDb : ContainerSummary := ⟨"a9b8c7d6e5f4", "db", "postgres", "Running", 9⟩

/-- A sample container row. -/
def cJob : ContainerSummary := ⟨"0011223344aa", "job", "alpine", "Exited", 2⟩

/-- A sample image row. -/
def iNginx : ImageSummary := ⟨"sha256:aa", "nginx:latest", 1000, 17⟩

/-- A sample image row. -/
def iAlpine : ImageSummary := ⟨"sha256:bb", "alpine:3", 500, 30⟩

/-- An oracle on which every runtime call succeeds. -/
def rtOk : Runtime :=
  { listContainers := fun _ _ => .ok [cWeb, cDb, cJob]
    getContainer := fun _ => .ok "{}"
    getContainerDetails := fun _ => .ok "{}"
    deleteContainer := fun _ => .ok ()
    validateContainerFilters := fun _ => true
    listImages := fun _ => .ok [iNginx, iAlpine]
    getImage := fun _ => .ok "{}"
    deleteImage := fun _ => .ok ()
    execSession := fun _ _ => .ok () }

/-- An oracle on which listing and deletion fail. -/
def rtFail : Runtime :=
  { rtOk with
    listContainers := fun _ _ => .error "socket closed"
    listImages := fun _ => .error "socket closed"
    deleteContainer := fun _ => .error "permission denied"
    deleteImage := fun _ => .error "permission denied" }

/-- A containers screen showing three rows with the first selected. -/
def cs3 : Containers.State :=
  { all := false, selected := some 0, containers := [cWeb, cDb, cJob],
    show_popup := .nothing, hasTx := true, sort_by := .name .asc,
    filter := default, token := 0, task := 0 }

/-- An images screen showing two rows with the last selected. -/
def is2 : Images.State :=
  { selected := some 1, images := [iNginx, iAlpine], show_popup := .nothing,
    hasTx := true, sort_by := .age .asc, filter := none }

/-! ## C7: line-editor invariant -/

/-- One line-editor operation preserves `cursor_position ≤ len(input)`
(the clamps make this unconditional except for the no-op branch of
backspace). -/
theorem applyEdit_inv (op : App.EditOp) (s : App.State)
    (h : s.cursor_position ≤ s.input.length) :
    (App.applyEdit op s).cursor_position ≤ (App.applyEdit op s).input.length := by
  cases op with
  | insert c =>
    simp only [App.applyEdit, App.enterChar, App.moveCursorRight, App.clampCursor]
    exact Nat.min_le_right _ _
  | backspace =>
    simp only [App.applyEdit, App.deleteChar]
    split
    · simp only [App.moveCursorLeft, App.clampCursor]
      exact Nat.min_le_right _ _
    · exact h
  | left =>
    simp only [App.applyEdit, App.moveCursorLeft, App.clampCursor]
    exact Nat.min_le_right _ _
  | right =>
    simp only [App.applyEdit, App.moveCursorRight, App.clampCursor]
    exact Nat.min_le_right _ _

/-- Sequences of line-editor operations preserve the cursor invariant. -/
theorem applyEdits_inv (ops : List App.EditOp) (s : App.State)
    (h : s.cursor_position ≤ s.input.length) :
    (App.applyEdits ops s).cursor_position ≤ (App.applyEdits ops s).input.length := by
  induction ops generalizing s with
  | nil => exact h
  | cons op ops ih =>
    have : App.applyEdits (op :: ops) s = App.applyEdits ops (App.applyEdit op s) := rfl
    rw [this]
    exact ih _ (applyEdit_inv op s h)

/-- C7: for every sequence of line-editor operations (insert char,
backspace, move left, move right) applied to the App Controller's input
buffer, `0 ≤ cursor_position ≤ len(input)` holds after each operation
(every intermediate state is `applyEdits` of a prefix, and the invariant
is preserved from any state satisfying it — in particular from the
initial empty buffer); and the Esc branch of `handle_input` resets the
buffer to empty, the cursor to 0 and the input mode to `None`. -/
theorem c7_line_editor :
    (∀ (s : App.State) (ops : List App.EditOp),
        s.cursor_position ≤ s.input.length →
        (App.applyEdits ops s).cursor_position ≤ (App.applyEdits ops s).input.length) ∧
    (∀ s : App.State,
        (App.escapeKey s).input = [] ∧ (App.escapeKey s).cursor_position = 0 ∧
        (App.escapeKey s).input_mode = App.InputMode.nothing) := by
  refine ⟨fun s ops h => applyEdits_inv ops s h, fun s => ⟨rfl, rfl, rfl⟩⟩

/-- Witness for C7 at a concrete buffer state and edit sequence. -/
theorem c7_line_editor_witness :
    (App.applyEdits [App.EditOp.insert 'a', App.EditOp.insert 'b', App.EditOp.left,
        App.EditOp.backspace, App.EditOp.right]
      App.State.new).cursor_position ≤
      (App.applyEdits [App.EditOp.insert 'a', App.EditOp.insert 'b', App.EditOp.left,
          App.EditOp.backspace, App.EditOp.right]
        App.State.new).input.length :=
  c7_line_editor.1 App.State.new
    [App.EditOp.insert 'a', App.EditOp.insert 'b', App.EditOp.left,
     App.EditOp.backspace, App.EditOp.right] (by decide)

/-! ## C8: cancellation is idempotent -/

/-- C8: cancelling a screen's background worker a second time (token
signal + handle abort after both already happened) is a no-op returning
normally: `cancel` is idempotent for both task-owning screens. -/
theorem c8_cancel_idempotent :
    (∀ (s : Containers.State) (env : TaskEnv),
        Containers.cancel s (Containers.cancel s env) = Containers.cancel s env) ∧
    (∀ (s : ContainerLogs.State) (env : TaskEnv),
        ContainerLogs.cancel s (ContainerLogs.cancel s env) = ContainerLogs.cancel s env) := by
  constructor
  · intro s env
    cases env with
    | mk nt nk c r =>
      simp only [Containers.cancel, TaskEnv.abortTask, TaskEnv.cancelToken,
        TaskEnv.mk.injEq, true_and]
      constructor
      · funext n
        by_cases hn : n = s.token <;> simp [hn]
      · funext n
        by_cases hn : n = s.task <;> simp [hn]
  · intro s env
    cases env with
    | mk nt nk c r =>
      simp only [ContainerLogs.cancel, TaskEnv.abortTask, TaskEnv.cancelToken,
        TaskEnv.mk.injEq, true_and]
      constructor
      · funext n
        by_cases hn : n = s.token <;> simp [hn]
      · funext n
        by_cases hn : n = s.task <;> simp [hn]

/-! ## C9: list-view selection wraps around -/

/-- C9: on both the containers and the images list screen, `previous`
with the first row selected wraps to the last row, `next` with the last
row selected wraps to the first, either with no selection selects row 0,
and on an empty list both leave the state unchanged. -/
theorem c9_selection_wraparound :
    (∀ s : Containers.State,
      (s.containers ≠ [] →
        (s.selected = some 0 →
          (Containers.previous s).selected = some (s.containers.length - 1)) ∧
        (s.selected = some (s.containers.length - 1) →
          (Containers.next s).selected = some 0) ∧
        (s.selected = none →
          (Containers.previous s).selected = some 0 ∧
          (Containers.next s).selected = some 0)) ∧
      (s.containers = [] →
        Containers.previous s = s ∧ Containers.next s = s)) ∧
    (∀ s : Images.State,
      (s.images ≠ [] →
        (s.selected = some 0 →
          (Images.previous s).selected = some (s.images.length - 1)) ∧
        (s.selected = some (s.images.length - 1) →
          (Images.next s).selected = some 0) ∧
        (s.selected = none →
          (Images.previous s).selected = some 0 ∧
          (Images.next s).selected = some 0)) ∧
      (s.images = [] →
        Images.previous s = s ∧ Images.next s = s)) := by
  constructor
  · intro s
    constructor
    · intro hne
      have hemp : s.containers.isEmpty = false := by
        cases hc : s.containers with
        | nil => exact absurd hc hne
        | cons a l => simp [List.isEmpty]
      refine ⟨?_, ?_, ?_⟩
      · intro hsel
        simp [Containers.previous, hemp, hsel]
      · intro hsel
        simp [Containers.next, hemp, hsel]
      · intro hsel
        constructor
        · simp [Containers.previous, hemp, hsel]
        · simp [Containers.next, hemp, hsel]
    · intro hnil
      have hemp : s.containers.isEmpty = true := by simp [hnil]
      constructor
      · simp [Containers.previous, hemp]
      · simp [Containers.next, hemp]
  · intro s
    constructor
    · intro hne
      have hemp : s.images.isEmpty = false := by
        cases hc : s.images with
        | nil => exact absurd hc hne
        | cons a l => simp [List.isEmpty]
      refine ⟨?_, ?_, ?_⟩
      · intro hsel
        simp [Images.previous, hemp, hsel]
      · intro hsel
        simp [Images.next, hemp, hsel]
      · intro hsel
        constructor
        · simp [Images.previous, hemp, hsel]
        · simp [Images.next, hemp, hsel]
    · intro hnil
      have hemp : s.images.isEmpty = true := by simp [hnil]
      constructor
      · simp [Images.previous, hemp]
      · simp [Images.next, hemp]

/-- Witness for C9: wrap from the first container row to the last, and
from the last image row to the first, on concrete screens. -/
theorem c9_selection_wraparound_witness :
    (Containers.previous cs3).selected = some 2 ∧ (Images.next is2).selected = some 0 := by
  constructor
  · exact ((c9_selection_wraparound.1 cs3).1 (by decide)).1 rfl
  · exact ((c9_selection_wraparound.2 is2).1 (by decide)).2.1 rfl

end Doggy

namespace Doggy

/-! ## C10: a visible popup suppresses screen-specific key bindings -/

/-- The global keymap consults the screen only through `has_filter`. -/
theorem globalKeymap_congr (main main2 : Component) (k : KeyEvent)
    (hf : Component.hasFilter main = Component.hasFilter main2) :
    App.globalKeymap main k = App.globalKeymap main2 k := by
  simp only [App.globalKeymap, hf]

/-- C10: while an App-level popup is visible, `handle_key` never
consults the active screen's `get_action`: the produced action is
exactly the fixed global keymap's, and is identical for any two screens
with the same `has_filter` answer. -/
theorem c10_popup_masks_screen_bindings :
    ∀ (s : App.State) (main main2 : Component) (k : KeyEvent) (env : TaskEnv),
      s.show_popup ≠ App.Popup.nothing →
      Component.hasFilter main = Component.hasFilter main2 →
      (App.handleKey s main k env).1 = App.globalKeymap main k ∧
      (App.handleKey s main k env).1 = (App.handleKey s main2 k env).1 := by
  intro s main main2 k env hp hf
  constructor
  · simp [App.handleKey, hp]
  · simp [App.handleKey, hp, globalKeymap_congr main main2 k hf]

/-- Witness for C10: with the Help popup up on the containers screen,
the key `i` (a containers-specific binding for Inspect) maps through the
global keymap only — producing no action — exactly as it would on the
images screen. -/
theorem c10_popup_masks_screen_bindings_witness :
    (App.handleKey { App.State.new with show_popup := .help }
        (Component.containers cs3) ⟨.char 'i', false⟩ TaskEnv.init).1 =
      App.globalKeymap (Component.containers cs3) ⟨.char 'i', false⟩ ∧
    (App.handleKey { App.State.new with show_popup := .help }
        (Component.containers cs3) ⟨.char 'i', false⟩ TaskEnv.init).1 =
      (App.handleKey { App.State.new with show_popup := .help }
        (Component.images is2) ⟨.char 'i', false⟩ TaskEnv.init).1 :=
  c10_popup_masks_screen_bindings { App.State.new with show_popup := .help }
    (Component.containers cs3) (Component.images is2) ⟨.char 'i', false⟩ TaskEnv.init
    (by decide) rfl

/-! ## C5: shell hand-off ordering -/

/-- C5: on the container list, `Action::Shell` with a row selected
enqueues exactly `Suspend` then `Screen(exec-session for the selected
id)`, in that order; and the exec screen's update, once the remote
stream has ended (a successful exec session, not yet stopped), enqueues
exactly `Resume` then `Screen(fresh container list)`, in that order. -/
theorem c5_shell_handoff :
    (∀ (s : Containers.State) (rt : Runtime) (env : TaskEnv) (i : Nat)
        (c : ContainerSummary),
      s.hasTx = true → s.show_popup = Containers.Popup.nothing →
      s.selected = some i → s.containers.get? i = some c →
      Containers.update rt .shell s env =
        .ok ⟨s, env,
             [.suspend, .screen (.containerExec (ContainerExec.new c.id c.name none))],
             []⟩) ∧
    (∀ (s : ContainerExec.State) (rt : Runtime) (a : Action) (env : TaskEnv),
      s.hasTx = true → s.should_stop = false →
      rt.execSession s.cid s.command = .ok () →
      ContainerExec.update rt a s env =
        .ok ⟨{ s with should_stop := true }, (Containers.new default env).2,
             [.resume, .screen (.containers (Containers.new default env).1)],
             [.execSession s.cid s.command]⟩) := by
  constructor
  · intro s rt env i c htx hpop hsel hget
    have hget2 : s.containers[i]? = some c := by simpa using hget
    simp [Containers.update, htx, hpop, Containers.getSelectedContainerInfo, hsel, hget2]
    rfl
  · intro s rt a env htx hstop hexec
    simp [ContainerExec.update, htx, hstop, hexec]
    rfl

/-- Witness for C5 at the concrete three-row screen (row 0 = `cWeb`)
and at a concrete exec session. -/
theorem c5_shell_handoff_witness :
    Containers.update rtOk .shell cs3 TaskEnv.init =
      .ok ⟨cs3, TaskEnv.init,
           [.suspend,
            .screen (.containerExec (ContainerExec.new cWeb.id cWeb.name none))],
           []⟩ ∧
    ContainerExec.update rtOk .tick
        { ContainerExec.new "abc" "job" none with hasTx := true } TaskEnv.init =
      .ok ⟨{ ContainerExec.new "abc" "job" none with hasTx := true, should_stop := true },
           (Containers.new default TaskEnv.init).2,
           [.resume, .screen (.containers (Containers.new default TaskEnv.init).1)],
           [.execSession "abc" ContainerExec.defaultCmd]⟩ := by
  constructor
  · exact c5_shell_handoff.1 cs3 rtOk TaskEnv.init 0 cWeb rfl rfl rfl rfl
  · exact c5_shell_handoff.2 { ContainerExec.new "abc" "job" none with hasTx := true }
      rtOk .tick TaskEnv.init rfl rfl rfl

end Doggy

namespace Doggy

/-! ## C6: changing the log window restarts exactly one follower -/

/-- C6: on the logs screen, `Action::Since(n)` cancels the previous
follower (token signalled, handle aborted, so the old task no longer
runs), clears the shared log buffer, and spawns exactly one fresh
follower: afterwards the buffer is empty (the new task has not written),
the screen stores exactly the one new `(token, task)` pair, the new task
is running, and exactly one task handle was allocated. -/
theorem c6_since_restarts_follower :
    ∀ (s : ContainerLogs.State) (rt : Runtime) (env : TaskEnv) (n : Nat),
      s.hasTx = true → s.task < env.nextTask →
      (ContainerLogs.update rt (.since n) s env).map
          (fun r => (r.state.logs, r.state.token, r.state.task,
                     r.env.cancelled s.token, r.env.running s.task,
                     r.env.running r.state.task,
                     r.env.nextTask, r.env.nextToken, r.emitted)) =
        .ok (([] : List String), env.nextToken, env.nextTask,
             true, false, true,
             env.nextTask + 1, env.nextToken + 1, ([] : List Action)) := by
  intro s rt env n htx hlt
  obtain ⟨sid, sname, slogs, stoken, stask, svs, shtx, sfollow, sas, ssince⟩ := s
  dsimp only at htx hlt ⊢
  subst htx
  simp [ContainerLogs.update, ContainerLogs.cancel, TaskEnv.abortTask,
    TaskEnv.cancelToken, TaskEnv.newToken, TaskEnv.spawnTask, Except.map,
    pure, Except.pure, Nat.ne_of_lt hlt]

/-- Witness for C6: change the window from the initial 15 minutes to 5
on a concrete freshly-created logs screen. -/
theorem c6_since_restarts_follower_witness :
    (ContainerLogs.update rtOk (.since 5)
        { (ContainerLogs.new "abc" "web" TaskEnv.init).1 with hasTx := true }
        (ContainerLogs.new "abc" "web" TaskEnv.init).2).map
        (fun r => (r.state.logs, r.state.token, r.state.task,
                   r.env.cancelled
                     ({ (ContainerLogs.new "abc" "web" TaskEnv.init).1 with
                         hasTx := true }).token,
                   r.env.running
                     ({ (ContainerLogs.new "abc" "web" TaskEnv.init).1 with
                         hasTx := true }).task,
                   r.env.running r.state.task,
                   r.env.nextTask, r.env.nextToken, r.emitted)) =
      .ok (([] : List String),
           (ContainerLogs.new "abc" "web" TaskEnv.init).2.nextToken,
           (ContainerLogs.new "abc" "web" TaskEnv.init).2.nextTask,
           true, false, true,
           (ContainerLogs.new "abc" "web" TaskEnv.init).2.nextTask + 1,
           (ContainerLogs.new "abc" "web" TaskEnv.init).2.nextToken + 1,
           ([] : List Action)) :=
  c6_since_restarts_follower
    { (ContainerLogs.new "abc" "web" TaskEnv.init).1 with hasTx := true } rtOk
    (ContainerLogs.new "abc" "web" TaskEnv.init).2 5 rfl (by decide)

end Doggy

namespace Doggy

/-- Whether the active screen is the container-logs view. -/
def componentIsLogs (c : Component) : Bool :=
  match c with
  | .containerLogs _ => true
  | _ => false

/-- Whether the active screen is the container-list view. -/
def componentIsContainers (c : Component) : Bool :=
  match c with
  | .containers _ => true
  | _ => false

/-! ## C1: `PreviousScreen` with a popup visible -/

/-- C1 (amended): dispatching `PreviousScreen` while a popup (Error or
Help) is visible and the input mode is `None` dismisses the popup, but
the action is nonetheless forwarded to the active screen's `update`
(the controller's result is exactly the screen update's result), so the
screen can still react to it — e.g. by enqueuing a screen replacement. -/
theorem c1_previousScreen_dismisses_and_forwards :
    ∀ (sys : App.Sys) (rt : Runtime),
      (sys.app.show_popup = App.Popup.help ∨
        ∃ m t ttl, sys.app.show_popup = App.Popup.error m t ttl) →
      sys.app.input_mode = App.InputMode.nothing →
      App.processOne rt sys .previousScreen =
        (Component.update rt .previousScreen sys.main sys.env).map
          (fun r => (⟨{ sys.app with show_popup := .nothing }, r.state, r.env⟩,
                     r.emitted)) := by
  intro sys rt hpop hmode
  obtain ⟨app, main, env⟩ := sys
  dsimp only at hpop hmode ⊢
  cases hup : Component.update rt .previousScreen main env with
  | ok r =>
    rcases hpop with h | ⟨m, t, ttl, h⟩ <;>
      simp [App.processOne, h, hmode, hup, Except.map]
  | error e =>
    rcases hpop with h | ⟨m, t, ttl, h⟩ <;>
      simp [App.processOne, h, hmode, hup, Except.map]

/-- A logs screen on top of a freshly torn-down containers screen, with
an Error toast shown — concrete state for the C1 witness. -/
def sysLogsToast : App.Sys :=
  let (ls, env1) := ContainerLogs.new "abc123456789" "web" TaskEnv.init
  ⟨{ App.State.new with show_popup := .error "boom" 8 8 },
   Component.register (.containerLogs ls), env1⟩

/-- Witness for C1 (amended) at `sysLogsToast`: the popup is dismissed
and the logs screen's `update` runs — emitting the `Screen(Containers)`
navigation. -/
theorem c1_previousScreen_dismisses_and_forwards_witness :
    App.processOne rtOk sysLogsToast .previousScreen =
      (Component.update rtOk .previousScreen sysLogsToast.main sysLogsToast.env).map
        (fun r => (⟨{ sysLogsToast.app with show_popup := .nothing }, r.state, r.env⟩,
                   r.emitted)) :=
  c1_previousScreen_dismisses_and_forwards sysLogsToast rtOk
    (Or.inr ⟨"boom", 8, 8, rfl⟩) rfl

/-- The initial system of `App::run`: a registered containers screen,
empty app state. -/
def sysInit : App.Sys :=
  let (cs, env1) := Containers.new default TaskEnv.init
  ⟨App.State.new, Component.register (.containers cs), env1⟩

/-- A reachable execution: refresh the list, open the logs screen, then
receive an error toast. -/
def c1Trace : Except String App.Sys := do
  let s1 ← App.drain rtOk 10 sysInit [.tick, .logs]
  App.drain rtOk 10 s1 [.error "boom"]

/-- ... and then dispatch `PreviousScreen` while the toast is visible. -/
def c1Final : Except String App.Sys := do
  let s2 ← c1Trace
  App.drain rtOk 10 s2 [.previousScreen]

/-- Counterexample to C1 as stated: from the initial system, a concrete
action sequence reaches a state where the logs screen is active, an
Error popup is visible and the input mode is `None`; draining one
`PreviousScreen` from there ends with the logs screen *replaced* (the
action reached the screen's `update`, which navigated away), contrary
to "never delivered ... never replaced". -/
theorem c1_counterexample :
    c1Trace.map
      (fun s => (componentIsLogs s.main, s.app.show_popup, s.app.input_mode)) =
      .ok (true, App.Popup.error "boom" 8 8, App.InputMode.nothing) ∧
    c1Final.map (fun s => (componentIsLogs s.main, s.app.show_popup)) =
      .ok (false, App.Popup.nothing) := by
  constructor
  · rfl
  · rfl

end Doggy

namespace Doggy

/-! ## C2: failing runtime calls inside `update` -/

/-- C2 (amended): on the containers screen, a failing `list_containers`
during `Tick` does not unwind — it is converted to an `Error(message)`
action sent on the channel — but the cached row list is *reset to
empty* (and an absent selection is initialized to row 0), the rest of
the view state unchanged; on the images screen a failing `list_images`
during `Tick` propagates out of `update` as an error. -/
theorem c2_failure_semantics :
    (∀ (s : Containers.State) (rt : Runtime) (env : TaskEnv) (e : String),
      s.hasTx = true → s.show_popup = Containers.Popup.nothing →
      rt.listContainers s.all s.filter = .error e →
      (Containers.update rt .tick s env).map (fun r => (r.state, r.env, r.emitted)) =
        .ok ({ s with
                containers := [],
                selected := if s.selected = none then some 0 else s.selected },
             env, [Action.error ("Error getting container list: " ++ e)])) ∧
    (∀ (s : Images.State) (rt : Runtime) (env : TaskEnv) (e : String),
      s.hasTx = true →
      rt.listImages s.filter = .error e →
      Images.update rt .tick s env = .error e) := by
  constructor
  · intro s rt env e htx hpop hlist
    obtain ⟨sall, ssel, scont, spop, shtx, ssort, sfilt, stok, stask⟩ := s
    dsimp only at htx hpop hlist ⊢
    subst htx
    subst hpop
    by_cases hsel : ssel = none <;>
      simp [Containers.update, hlist, Containers.sortRows, sortByLe, Except.map, hsel] <;>
      rfl
  · intro s rt env e htx hlist
    obtain ⟨ssel, simg, spop, shtx, ssort, sfilt⟩ := s
    dsimp only at htx hlist ⊢
    subst htx
    simp [Images.update, hlist]
    rfl

/-- Witness for C2 (amended) at the concrete three-row screen and the
failing oracle. -/
theorem c2_failure_semantics_witness :
    (Containers.update rtFail .tick cs3 TaskEnv.init).map
        (fun r => (r.state, r.env, r.emitted)) =
      .ok ({ cs3 with
              containers := [],
              selected := if cs3.selected = none then some 0 else cs3.selected },
           TaskEnv.init,
           [Action.error ("Error getting container list: " ++ "socket closed")]) ∧
    Images.update rtFail .tick { is2 with filter := none } TaskEnv.init =
      .error "socket closed" := by
  constructor
  · exact c2_failure_semantics.1 cs3 rtFail TaskEnv.init "socket closed" rfl rfl rfl
  · exact c2_failure_semantics.2 { is2 with filter := none } rtFail TaskEnv.init
      "socket closed" rfl rfl

/-- Counterexample to C2 as stated: at a concrete screen holding three
cached rows, a failing `Tick` *changes* the view-local state — the row
cache becomes empty — so the "left exactly unchanged" part of the claim
is false (and, on the images screen, the error unwinds out of `update`
instead of becoming an `Error` action). -/
theorem c2_counterexample :
    (Containers.update rtFail .tick cs3 TaskEnv.init).map
        (fun r => r.state.containers) = .ok [] ∧
    cs3.containers = [cWeb, cDb, cJob] ∧
    cs3.containers ≠ [] ∧
    (Images.update rtFail .tick { is2 with filter := none } TaskEnv.init).isOk
      = false := by
  refine ⟨rfl, rfl, by decide, rfl⟩

/-! ## C3: the container delete confirmation flow -/

/-- C3 (amended): `Action::Delete` with a row selected sets the popup to
`Delete(id, name)`; a subsequent `Action::Ok` calls
`deleteContainer(id)`; if the call succeeds the popup becomes `None`
and *no* follow-up action is enqueued (in particular no `Tick`, unlike
the images screen's delete path); if the call fails an `Error` action
is enqueued and the popup remains `Delete(id, name)`. -/
theorem c3_delete_flow :
    (∀ (s : Containers.State) (rt : Runtime) (env : TaskEnv) (i : Nat)
        (c : ContainerSummary),
      s.hasTx = true → s.show_popup = Containers.Popup.nothing →
      s.selected = some i → s.containers.get? i = some c →
      Containers.update rt .delete s env =
        .ok ⟨{ s with show_popup := .delete c.id c.name }, env, [], []⟩) ∧
    (∀ (s : Containers.State) (rt : Runtime) (env : TaskEnv) (cid cname : String),
      s.hasTx = true → s.show_popup = Containers.Popup.delete cid cname →
      rt.deleteContainer cid = .ok () →
      Containers.update rt .ok s env =
        .ok ⟨{ s with show_popup := .nothing }, env, [], [.deleteContainer cid]⟩) ∧
    (∀ (s : Containers.State) (rt : Runtime) (env : TaskEnv) (cid cname e : String),
      s.hasTx = true → s.show_popup = Containers.Popup.delete cid cname →
      rt.deleteContainer cid = .error e →
      Containers.update rt .ok s env =
        .ok ⟨s, env,
             [.error ("Unable to delete container \"" ++ cid ++ "\" " ++ e)],
             [.deleteContainer cid]⟩) := by
  refine ⟨?_, ?_, ?_⟩
  · intro s rt env i c htx hpop hsel hget
    have hget2 : s.containers[i]? = some c := by simpa using hget
    simp [Containers.update, htx, hpop, Containers.getSelectedContainerInfo, hsel, hget2]
    rfl
  · intro s rt env cid cname htx hpop hdel
    simp [Containers.update, htx, hpop, hdel]
    rfl
  · intro s rt env cid cname e htx hpop hdel
    simp [Containers.update, htx, hpop, hdel]
    rfl

/-- Witness for C3 (amended): delete the selected first row (`cWeb`) of
the concrete screen, confirming against both oracles. -/
theorem c3_delete_flow_witness :
    Containers.update rtOk .delete cs3 TaskEnv.init =
      .ok ⟨{ cs3 with show_popup := .delete cWeb.id cWeb.name }, TaskEnv.init, [], []⟩ ∧
    Containers.update rtOk .ok
        { cs3 with show_popup := .delete cWeb.id cWeb.name } TaskEnv.init =
      .ok ⟨{ cs3 with show_popup := .nothing }, TaskEnv.init, [],
           [.deleteContainer cWeb.id]⟩ ∧
    Containers.update rtFail .ok
        { cs3 with show_popup := .delete cWeb.id cWeb.name } TaskEnv.init =
      .ok ⟨{ cs3 with show_popup := .delete cWeb.id cWeb.name }, TaskEnv.init,
           [.error ("Unable to delete container \"" ++ cWeb.id ++ "\" "
              ++ "permission denied")],
           [.deleteContainer cWeb.id]⟩ := by
  refine ⟨?_, ?_, ?_⟩
  · exact c3_delete_flow.1 cs3 rtOk TaskEnv.init 0 cWeb rfl rfl rfl rfl
  · exact c3_delete_flow.2.1 { cs3 with show_popup := .delete cWeb.id cWeb.name }
      rtOk TaskEnv.init cWeb.id cWeb.name rfl rfl rfl
  · exact c3_delete_flow.2.2 { cs3 with show_popup := .delete cWeb.id cWeb.name }
      rtFail TaskEnv.init cWeb.id cWeb.name "permission denied" rfl rfl rfl

/-- Counterexample to C3 as stated: at a concrete screen whose popup is
`Delete(id, name)`, a successful `Ok` dismisses the popup but enqueues
*nothing* — no `Tick` action is sent, contrary to the claim. -/
theorem c3_counterexample :
    (Containers.update rtOk .ok
        { cs3 with show_popup := .delete "a9b8c7d6e5f4" "db" } TaskEnv.init).map
      (fun r => (r.state.show_popup, r.emitted, r.calls)) =
      .ok (Containers.Popup.nothing, ([] : List Action),
           [RCall.deleteContainer "a9b8c7d6e5f4"]) := by
  rfl

end Doggy

namespace Doggy

/-! ## C4: teardown on screen replacement -/

/-- A running logs screen (its follower holds token 0 / task 0). -/
def lsC4 : ContainerLogs.State × TaskEnv :=
  ContainerLogs.new "abc123456789" "web" TaskEnv.init

/-- The replacement containers screen, constructed (as the real sender
does) before the `Screen` action is dispatched. -/
def csC4 : Containers.State × TaskEnv :=
  Containers.new default lsC4.2

/-- The system right before the `Screen(Containers)` action is drained:
logs screen active, its follower running. -/
def sysC4 : App.Sys :=
  ⟨App.State.new, Component.register (.containerLogs lsC4.1), csC4.2⟩

/-- C4 evidence: processing `Screen(X)` does install `X` as the active
screen, and `teardown` is invoked on the previous screen before it is
dropped — but `Component::teardown` delegates only to the `Containers`
and `ContainerExec` variants, so for a previous `ContainerLogs` screen
it is the default no-op: afterwards the old follower task is *still
running* and its cancellation token *unsignalled*, contradicting the
claim (and spec §4.2/§8) that every owned task has been signalled and
aborted. -/
theorem c4_logs_teardown_leaks :
    (App.processOne rtOk sysC4 (.screen (.containers csC4.1))).map
      (fun p => (componentIsContainers p.1.main,
                 p.1.env.running lsC4.1.task,
                 p.1.env.cancelled lsC4.1.token,
                 p.2)) =
      .ok (true, true, false, ([] : List Action)) ∧
    lsC4.1.task = 0 ∧ lsC4.1.token = 0 := by
  refine ⟨rfl, rfl, rfl⟩

/-- By contrast, replacing a previous `Containers` screen does signal
its token and abort its metrics task (this is the fragment of C4 the
code satisfies). -/
theorem c4_containers_teardown_cancels :
    ∀ (s : Containers.State) (app : App.State) (env : TaskEnv) (rt : Runtime)
      (c : Component),
      app.input_mode = App.InputMode.nothing →
      (App.processOne rt ⟨app, .containers s, env⟩ (.screen c)).map
          (fun p => (p.1.env.cancelled s.token, p.1.env.running s.task)) =
        (Component.update rt (.screen c) (Component.register c)
            (Containers.cancel s env)).map
          (fun r => (r.env.cancelled s.token, r.env.running s.task)) := by
  intro s app env rt c hmode
  cases hup : Component.update rt (.screen c) (Component.register c)
      (Containers.cancel s env) with
  | ok r =>
    simp [App.processOne, hmode, Component.teardown, Containers.teardown, hup, Except.map]
  | error e =>
    simp [App.processOne, hmode, Component.teardown, Containers.teardown, hup, Except.map]

end Doggy
